import Mathlib

/-!
Verification development for the `sweep` GitHub search sampler
(`src/index.js`, current revision).

The program enumerates search-query parameterizations, drives a paginated
search loop with rate-limit pacing and abuse-detection retries, and persists
deduplicated file contents into a sqlite table with a unique index on the
blob identity (`git_hash`).

The shallow embedding below mirrors the source functions: header parsing
(`getRateLimits`, `getLastPageNumber`), the parameterization generator
(`getHelpfulParams`), the dedup store (`haveSeenGitHash`, `saveFileData`,
`processSearchResults`), and the paged fetch loop of `main`, modelled as a
fuel-driven state machine whose network outcomes are supplied by an oracle
(a list of call events) and whose observable actions (requests, responses,
sleeps, closing the database) are recorded as a trace of events.
-/

namespace Sweep

/-! ### Header parsing (RateWindow) -/

/-- A relation parsed out of a pagination `link` header (parse-link-header
yields string-valued fields; only `page` is consumed by the source). -/
structure LinkRel where
  page : String
deriving DecidableEq

/-- The parsed pagination `link` header: the source only reads `links.last`. -/
structure Links where
  last : Option LinkRel
deriving DecidableEq

/-- The response headers the source reads: the two rate-limit headers and the
pagination `link` header in parsed form (`none` models an absent header). -/
structure Headers where
  xRatelimitReset : Option String
  xRatelimitRemaining : Option String
  link : Option Links
deriving DecidableEq

/-- Decimal value of a run of digit characters, most significant first. -/
def digitsToNat (acc : Nat) : List Char → Nat
  | [] => acc
  | c :: cs => digitsToNat (acc * 10 + (c.toNat - 48)) cs

/-- JS `parseInt(s, 10)` on the decimal header strings this program
receives; a string that is not a plain run of digits (JS `NaN`) is
collapsed to `0`. -/
def parseInt10 (s : String) : Nat :=
  if s.data ≠ [] ∧ s.data.all Char.isDigit then digitsToNat 0 s.data else 0

/-- JS `v || d` on an optional string header: `undefined` and the empty
string are falsy and fall through to the default. -/
def orDefault (v : Option String) (d : String) : String :=
  match v with
  | none => d
  | some s => if s.isEmpty then d else s

/-- Result of `getRateLimits`. -/
structure RateLimits where
  resetTimestamp : Nat
  requestsRemaining : Nat
deriving DecidableEq

/-- `getRateLimits(headers)`: reset epoch seconds scaled to milliseconds and
remaining request count, each defaulting to `0` when the header is absent. -/
def getRateLimits (headers : Headers) : RateLimits :=
  { resetTimestamp := parseInt10 (orDefault headers.xRatelimitReset "0") * 1000
  , requestsRemaining := parseInt10 (orDefault headers.xRatelimitRemaining "0") }

/-- `getLastPageNumber(headers)`: `0` when the `link` header is absent or has
no `last` relation, else the parsed page number of the `last` relation. -/
def getLastPageNumber (headers : Headers) : Nat :=
  match headers.link with
  | none => 0
  | some links =>
    match links.last with
    | none => 0
    | some l => parseInt10 l.page

/-! ### ParameterSpace Enumerator -/

/-- One query parameterization yielded by `getHelpfulParams`: sort mode
(`undefined` or `"indexed"`), order mode (`undefined`, `"asc"` or `"desc"`),
and the search term. -/
structure QueryParams where
  sortParam : Option String
  orderParam : Option String
  searchTerm : String
deriving DecidableEq

/-- The `orderParams` array of `getHelpfulParams`. -/
def orderParams : List String := ["asc", "desc"]

/-- The `searchTerms` array for the `package.json` case of
`getHelpfulParams`: the known field names of a package.json. -/
def packageJsonSearchTerms : List String :=
  [ "name", "version", "description", "keywords", "homepage",
    "bugs", "license", "author", "contributors", "files",
    "main", "browser", "bin", "man", "directories", "repository",
    "scripts", "config", "dependencies", "devDependencies", "peerDependencies",
    "bundledDependencies", "optionalDependencies", "engines", "engineStrict", "os",
    "cpu", "preferGlobal", "private", "publishConfig" ]

/-- `getHelpfulParams(fileName)` as the list of parameterizations the
generator yields, in yield order: for `package.json`, one default-sort
parameterization per search term, then one per (order, term) pair under
`sort: "indexed"`; for any other filename, the empty-term fallback triple. -/
def getHelpfulParams (fileName : String) : List QueryParams :=
  if fileName = "package.json" then
    (packageJsonSearchTerms.map fun searchTerm =>
      { sortParam := none, orderParam := none, searchTerm := searchTerm })
    ++ (orderParams.map fun orderParam =>
          packageJsonSearchTerms.map fun searchTerm =>
            { sortParam := some "indexed", orderParam := some orderParam
            , searchTerm := searchTerm }).flatten
  else
    { sortParam := none, orderParam := none, searchTerm := "" } ::
    orderParams.map fun orderParam =>
      { sortParam := some "indexed", orderParam := some orderParam, searchTerm := "" }

/-! ### Dedup Store -/

/-- One row of the per-filename sqlite table
`(url text NOT NULL, data blob NOT NULL, git_hash text NOT NULL)`. -/
structure Row where
  url : String
  data : String
  git_hash : String
deriving DecidableEq

/-- The durable table contents, in insertion order. -/
abbrev Table := List Row

/-- A sqlite error as surfaced to the `db.run` callback; `errno = 19` is
`SQLITE_CONSTRAINT`. -/
structure SqliteError where
  errno : Nat
deriving DecidableEq

/-- Semantics of `db.run('INSERT INTO ... VALUES (?, ?, ?)')` against the
table of `setup`, which carries `CREATE UNIQUE INDEX ... ON (git_hash)`:
the insert is rejected with errno 19 when a row with the same `git_hash`
already exists, and appends the row otherwise. -/
def dbInsert (tbl : Table) (r : Row) : Except SqliteError Table :=
  if tbl.any fun row => row.git_hash = r.git_hash then
    .error { errno := 19 }
  else
    .ok (tbl ++ [r])

/-- The callback logic of `saveFileData`: given `db.run`'s outcome, resolve
`0` when the error is errno 19 (a constraint rejection: we have seen the row
before), reject any other error, and resolve `1` on a clean insert. The
resulting table accompanies the count. -/
def saveFileDataCallback (outcome : Except SqliteError Table) (tbl : Table) :
    Except SqliteError (Nat × Table) :=
  match outcome with
  | .error err => if err.errno = 19 then .ok (0, tbl) else .error err
  | .ok tbl2 => .ok (1, tbl2)

/-- `saveFileData(db, tableName, { url, content, githash })`: run the insert
and apply the callback classification. -/
def saveFileData (tbl : Table) (url content githash : String) :
    Except SqliteError (Nat × Table) :=
  saveFileDataCallback (dbInsert tbl { url := url, data := content, git_hash := githash }) tbl

/-- `haveSeenGitHash(db, tableName, githash)`:
`SELECT git_hash FROM ... WHERE git_hash = ?` followed by `!!row`. -/
def haveSeenGitHash (tbl : Table) (githash : String) : Bool :=
  tbl.any fun row => row.git_hash = githash

/-- One search-result item as consumed by `processSearchResults`
(`html_url` and the blob identity `sha`). -/
structure Item where
  html_url : String
  sha : String
deriving DecidableEq

/-- Outcome of one item's work inside `processSearchResults`: the resolved
count, the table afterwards, and whether `downloadFile` was invoked. -/
structure OfferResult where
  saved : Nat
  tbl : Table
  downloadInvoked : Bool
deriving DecidableEq

/-- The per-item closure of `processSearchResults`: check `haveSeenGitHash`
first and skip download and save on a hit; otherwise download the content
(`download` stands for `downloadFile`'s url-to-bytes effect) and attempt
`saveFileData`. -/
def processItem (tbl : Table) (download : String → String) (item : Item) :
    Except SqliteError OfferResult :=
  if haveSeenGitHash tbl item.sha then
    .ok { saved := 0, tbl := tbl, downloadInvoked := false }
  else
    match saveFileData tbl item.html_url (download item.html_url) item.sha with
    | .error e => .error e
    | .ok (n, tbl2) => .ok { saved := n, tbl := tbl2, downloadInvoked := true }

/-- `processSearchResults(db, tableName, client, items)`: run every item's
work and sum the resolved counts (the concurrent `Promise.all` fan-out is
modelled sequentially in item order; `Promise.all` rejects when any single
item rejects). -/
def processSearchResults (tbl : Table) (download : String → String) (items : List Item) :
    Except SqliteError (Nat × Table) :=
  match items with
  | [] => .ok (0, tbl)
  | item :: rest =>
    match processItem tbl download item with
    | .error e => .error e
    | .ok r =>
      match processSearchResults r.tbl download rest with
      | .error e => .error e
      | .ok (n, tbl2) => .ok (r.saved + n, tbl2)

/-- `fileName.replace(/\./g, '_')`, the table-name derivation in `main`. -/
def tableNameOf (fileName : String) : String :=
  String.map (fun c => if c = '.' then '_' else c) fileName

/-! ### The paged fetch loop of `main`

The loop is modelled as a fuel-driven state machine. Each search call's
outcome and its wall-clock cost are supplied by an oracle (a list of
`CallEvent`s consumed one per issued request); the loop's observable actions
are recorded in an event trace. -/

/-- The error object a failed search call rejects with: its `status` and the
`retry-after` response header when response headers are attached
(`none` models both a missing headers object and a missing header). -/
structure ApiError where
  status : Nat
  retryAfter : Option String
deriving DecidableEq

/-- JS truthiness of `e.headers && e.headers['retry-after']`: an absent
header and an empty string are falsy. -/
def headerTruthy : Option String → Bool
  | none => false
  | some s => !s.isEmpty

/-- The `data` field of a search response: the item list. -/
structure SearchData where
  items : List Item
deriving DecidableEq

/-- A successful search response: data and headers, from which
`getSearchResults` derives `rateLimits` and `lastPageNumber`. -/
structure SearchResponse where
  data : SearchData
  headers : Headers
deriving DecidableEq

/-- Outcome of one search call. -/
inductive CallOutcome where
  | success (resp : SearchResponse)
  | failure (e : ApiError)
deriving DecidableEq

/-- One oracle entry: the outcome of the next issued search call, the wall
time the call takes, and the wall time this page's item processing takes
when the call succeeds. -/
structure CallEvent where
  outcome : CallOutcome
  callMs : Nat
  processMs : Nat
deriving DecidableEq

/-- Observable actions of a run, in order: a search request issued for a
page at a time, a response received reporting the last page index, a timed
sleep, and the closing of the database handle. -/
inductive Event where
  | request (fileName : String) (params : QueryParams) (page : Nat) (time : Nat)
  | response (page : Nat) (lastPage : Nat) (time : Nat)
  | sleep (ms : Nat)
  | dbClosed
deriving DecidableEq

/-- The mutable state threaded through the loop: the clock, the durable
table, and the accumulated event trace. -/
structure FetchState where
  now : Nat
  tbl : Table
  events : List Event
deriving DecidableEq

/-- How a run dies: the `TypeError` thrown by destructuring the `undefined`
`res` after an unhandled call failure (or by `fileName.replace` on a missing
argument), or a propagated storage error. -/
inductive RunError where
  | typeError
  | storage (e : SqliteError)
deriving DecidableEq

/-- Result of the page loop of one parameterization: normal exit with the
remaining oracle, a fatal error that aborts the run, or fuel exhaustion. -/
inductive LoopResult where
  | done (s : FetchState) (calls : List CallEvent)
  | fatal (s : FetchState) (err : RunError)
  | outOfFuel (s : FetchState)
deriving DecidableEq

/-- The state carried by a `LoopResult`. -/
def LoopResult.state : LoopResult → FetchState
  | .done s _ => s
  | .fatal s _ => s
  | .outOfFuel s => s

/-- The guard of the page loop, `page < lastPage`, with `none` standing for
the initial `Number.POSITIVE_INFINITY`. -/
def pageGuard (page : Nat) (lastPage : Option Nat) : Bool :=
  match lastPage with
  | none => true
  | some lp => decide (page < lp)

/-- The inner `for (let page = 0; page < lastPage; page++)` loop of `main`
for one parameterization. Each iteration issues a search request (consuming
the next oracle entry). On a failure with status 403 and a truthy
`retry-after` header, it sleeps for exactly `retry-after` seconds in
milliseconds and retries the same page (`page--; continue`); on any other
failure, the destructuring of the undefined `res` throws a `TypeError`,
fatal to the run. On success it records the response, re-reads `lastPage`
from the response, processes the page's items against the store (a storage
rejection other than errno 19 propagates fatally), then applies the pacing
rule: with `requestsRemaining < 1` it sleeps until `resetTimestamp` plus the
2000 ms buffer of `sleepUntil`; otherwise, when the time since the call
returned is under 3000 ms, it sleeps for the remainder of those 3000 ms. -/
def pageLoop (fileName : String) (params : QueryParams) (download : String → String) :
    Nat → Nat → Option Nat → List CallEvent → FetchState → LoopResult
  | 0, _, _, _, s => .outOfFuel s
  | fuel + 1, page, lastPage, calls, s =>
    if pageGuard page lastPage then
      match calls with
      | [] => .outOfFuel s
      | c :: calls =>
        let s1 : FetchState :=
          { s with events := s.events ++ [.request fileName params page s.now]
                 , now := s.now + c.callMs }
        match c.outcome with
        | .failure e =>
          if e.status = 403 ∧ headerTruthy e.retryAfter then
            let ra := parseInt10 (e.retryAfter.getD "") * 1000
            let s2 : FetchState :=
              { s1 with events := s1.events ++ [.sleep ra], now := s1.now + ra }
            pageLoop fileName params download fuel page lastPage calls s2
          else
            .fatal s1 .typeError
        | .success resp =>
          let rateLimits := getRateLimits resp.headers
          let lastPageNumber := getLastPageNumber resp.headers
          let lastCallTimestamp := s1.now
          let s2 : FetchState :=
            { s1 with events := s1.events ++ [.response page lastPageNumber s1.now] }
          match processSearchResults s2.tbl download resp.data.items with
          | .error e => .fatal s2 (.storage e)
          | .ok (_, tbl2) =>
            let s3 : FetchState := { s2 with tbl := tbl2, now := s2.now + c.processMs }
            let timeSinceLastCall := s3.now - lastCallTimestamp
            let s4 : FetchState :=
              if rateLimits.requestsRemaining < 1 then
                let ms := rateLimits.resetTimestamp + 2000 - s3.now
                { s3 with events := s3.events ++ [.sleep ms], now := s3.now + ms }
              else if timeSinceLastCall < 3000 then
                let ms := 3000 - timeSinceLastCall
                { s3 with events := s3.events ++ [.sleep ms], now := s3.now + ms }
              else s3
            pageLoop fileName params download fuel (page + 1) (some lastPageNumber) calls s4
    else .done s calls

/-- How `main` ends: the parameter space exhausted, a caught fatal error, or
the model's fuel exhausted. -/
inductive RunOutcome where
  | completed
  | fatalError (err : RunError)
  | outOfFuel
deriving DecidableEq

/-- The outer `for (const params of getHelpfulParams(fileName))` loop of
`main`: each parameterization starts its page loop at page 0 with
`lastPage = Number.POSITIVE_INFINITY`; a fatal page loop aborts the
remaining parameterizations. -/
def paramsLoop (fileName : String) (download : String → String) (fuel : Nat) :
    List QueryParams → List CallEvent → FetchState → RunOutcome × FetchState
  | [], _, s => (.completed, s)
  | p :: rest, calls, s =>
    match pageLoop fileName p download fuel 0 none calls s with
    | .done s2 calls2 => paramsLoop fileName download fuel rest calls2 s2
    | .fatal s2 err => (.fatalError err, s2)
    | .outOfFuel s2 => (.outOfFuel, s2)

/-- The result of a run that got past startup: its outcome and final state
(whose trace ends with the `finally` close of the database). -/
structure RunResult where
  outcome : RunOutcome
  state : FetchState
deriving DecidableEq

/-- `main`: destructures `process.argv` into the file name — when the
argument is absent, `fileName.replace` throws a `TypeError` before the
database is opened — then derives the table name, drives the
parameterization loop inside `try/catch` (a caught error only ends the
enumeration), and closes the database in `finally` on every such path. -/
def mainRun (argvFileName : Option String) (download : String → String)
    (fuel : Nat) (calls : List CallEvent) (startNow : Nat) :
    Except RunError RunResult :=
  match argvFileName with
  | none => .error .typeError
  | some fileName =>
    let _tableName := tableNameOf fileName
    let s0 : FetchState := { now := startNow, tbl := [], events := [] }
    let r := paramsLoop fileName download fuel (getHelpfulParams fileName) calls s0
    .ok { outcome := r.1
        , state := { r.2 with events := r.2.events ++ [.dbClosed] } }

/-! ### Trace observations -/

/-- The most recently reported last-page index after a trace, starting from
a prior bound (`none` meaning no report yet). -/
def lastReported : List Event → Option Nat → Option Nat
  | [], b => b
  | Event.response _ lp _ :: rest, _ => lastReported rest (some lp)
  | _ :: rest, b => lastReported rest b

/-- Holds of a trace when every request in it is for a page index strictly
below the most recently reported last-page index before it (requests before
any report are unconstrained). -/
def requestsBelowBound : List Event → Option Nat → Bool
  | [], _ => true
  | Event.response _ lp _ :: rest, _ => requestsBelowBound rest (some lp)
  | Event.request _ _ p _ :: rest, b => pageGuard p b && requestsBelowBound rest b
  | _ :: rest, b => requestsBelowBound rest b

/-- Modelled from the claim's words, for comparison with the code: the
sleep the spacing rule is claimed to perform — the remainder of a 3-second
minimum inter-request spacing measured from just before the search call is
issued until just after page processing finishes. -/
def specClaimedSpacingSleep (callMs processMs : Nat) : Nat :=
  3000 - (callMs + processMs)

/-! ## Claims -/

/-- A step equation for the page loop: a call failing with status 403 and a
truthy retry-after header makes the loop sleep for exactly the retry-after
duration in milliseconds and continue at the same page with the same
last-page bound. -/
theorem pageLoop_step_retry (fileName : String) (params : QueryParams)
    (download : String → String) (fuel page : Nat) (lastPage : Option Nat)
    (e : ApiError) (ra : String) (c : CallEvent) (calls : List CallEvent)
    (s : FetchState)
    (hguard : pageGuard page lastPage = true)
    (hfail : c.outcome = .failure e)
    (hstatus : e.status = 403) (hra : e.retryAfter = some ra) (hne : ra ≠ "") :
    pageLoop fileName params download (fuel + 1) page lastPage (c :: calls) s =
      pageLoop fileName params download fuel page lastPage calls
        { now := s.now + c.callMs + parseInt10 ra * 1000
        , tbl := s.tbl
        , events := s.events ++ [.request fileName params page s.now]
            ++ [.sleep (parseInt10 ra * 1000)] } := by
  have hempty : ra.isEmpty = false := by
    cases h : ra.isEmpty
    · rfl
    · exact absurd ((String.isEmpty_iff ra).mp h) hne
  simp [pageLoop, hguard, hfail, hstatus, hra, headerTruthy, hempty]

/-- A step equation for the page loop: a call failing without the
abuse-detection signal leaves `res` undefined, whose destructuring throws a
`TypeError` immediately after the request, fatal to the run. -/
theorem pageLoop_step_fatal (fileName : String) (params : QueryParams)
    (download : String → String) (fuel page : Nat) (lastPage : Option Nat)
    (e : ApiError) (c : CallEvent) (calls : List CallEvent) (s : FetchState)
    (hguard : pageGuard page lastPage = true)
    (hfail : c.outcome = .failure e)
    (hnoabuse : ¬ (e.status = 403 ∧ headerTruthy e.retryAfter)) :
    pageLoop fileName params download (fuel + 1) page lastPage (c :: calls) s =
      .fatal { now := s.now + c.callMs, tbl := s.tbl
             , events := s.events ++ [.request fileName params page s.now] }
        .typeError := by
  simp [pageLoop, hguard, hfail, hnoabuse]

/-- A step equation for the page loop: a successful page records the
request and the response, folds the items into the table, applies the
pacing rule (sleep until reset plus 2000 ms when the remaining quota is
below 1, else sleep the remainder of 3000 ms not already consumed by
processing), and continues at the next page with the reported last page. -/
theorem pageLoop_step_success (fileName : String) (params : QueryParams)
    (download : String → String) (fuel page : Nat) (lastPage : Option Nat)
    (c : CallEvent) (calls : List CallEvent) (s : FetchState)
    (resp : SearchResponse) (n : Nat) (tbl2 : Table)
    (hguard : pageGuard page lastPage = true)
    (hsucc : c.outcome = .success resp)
    (hok : processSearchResults s.tbl download resp.data.items = .ok (n, tbl2)) :
    pageLoop fileName params download (fuel + 1) page lastPage (c :: calls) s =
      pageLoop fileName params download fuel (page + 1)
        (some (getLastPageNumber resp.headers)) calls
        { now := s.now + c.callMs + c.processMs +
            (if (getRateLimits resp.headers).requestsRemaining < 1 then
              (getRateLimits resp.headers).resetTimestamp + 2000 -
                (s.now + c.callMs + c.processMs)
             else if c.processMs < 3000 then 3000 - c.processMs
             else 0)
        , tbl := tbl2
        , events := s.events ++ [.request fileName params page s.now]
            ++ [.response page (getLastPageNumber resp.headers) (s.now + c.callMs)]
            ++ (if (getRateLimits resp.headers).requestsRemaining < 1 ∨ c.processMs < 3000 then
                  [Event.sleep
                    (if (getRateLimits resp.headers).requestsRemaining < 1 then
                      (getRateLimits resp.headers).resetTimestamp + 2000 -
                        (s.now + c.callMs + c.processMs)
                     else 3000 - c.processMs)]
                else []) } := by
  by_cases hrem : (getRateLimits resp.headers).requestsRemaining < 1
  · simp [pageLoop, hguard, hsucc, hok, hrem, Nat.add_sub_cancel_left]
  · by_cases hproc : c.processMs < 3000
    · simp [pageLoop, hguard, hsucc, hok, hrem, hproc, Nat.add_sub_cancel_left]
    · simp [pageLoop, hguard, hsucc, hok, hrem, hproc, Nat.add_sub_cancel_left]

/-- A step equation for the page loop: a storage rejection other than the
absorbed constraint case propagates out of page processing and is fatal. -/
theorem pageLoop_step_storage (fileName : String) (params : QueryParams)
    (download : String → String) (fuel page : Nat) (lastPage : Option Nat)
    (c : CallEvent) (calls : List CallEvent) (s : FetchState)
    (resp : SearchResponse) (err : SqliteError)
    (hguard : pageGuard page lastPage = true)
    (hsucc : c.outcome = .success resp)
    (herr : processSearchResults s.tbl download resp.data.items = .error err) :
    pageLoop fileName params download (fuel + 1) page lastPage (c :: calls) s =
      .fatal { now := s.now + c.callMs, tbl := s.tbl
             , events := s.events ++ [.request fileName params page s.now]
                 ++ [.response page (getLastPageNumber resp.headers) (s.now + c.callMs)] }
        (.storage err) := by
  simp [pageLoop, hguard, hsucc, herr]

/-- C2 counterexample: the enumeration for target filename `package.json`
does not total 87 parameterizations (it has 30 known field names, not 29,
so it totals 90). -/
theorem c2_counterexample :
    (getHelpfulParams "package.json").length ≠ 87 := by decide

/-- C2 (amended): for target filename `package.json`, one full run of the
enumerator yields exactly 30 parameterizations under default sort (one per
known field name) plus 60 under by-recency (`indexed`) sort (2 order modes
times 30 terms), 90 parameterizations in total. -/
theorem c2_enumeration_counts :
    ((getHelpfulParams "package.json").filter fun p => p.sortParam = none).length = 30 ∧
    ((getHelpfulParams "package.json").filter
        fun p => p.sortParam = some "indexed").length = 60 ∧
    (getHelpfulParams "package.json").length = 90 := by
  decide

/-- C5: whenever a page's search call fails with the abuse-detection signal
(status 403 carrying a retry-after duration), the fetch loop sleeps for
exactly that duration — retry-after seconds scaled to milliseconds, with no
extra buffer — and then continues at the same page index with the same
last-page bound, so the request for that page is re-issued: the page
counter never advances past the failed page and its items are not skipped. -/
theorem c5_abuse_retry_same_page (fileName : String) (params : QueryParams)
    (download : String → String) (fuel page : Nat) (lastPage : Option Nat)
    (e : ApiError) (ra : String) (c : CallEvent) (calls : List CallEvent)
    (s : FetchState)
    (hguard : pageGuard page lastPage = true)
    (hfail : c.outcome = .failure e)
    (hstatus : e.status = 403) (hra : e.retryAfter = some ra) (hne : ra ≠ "") :
    pageLoop fileName params download (fuel + 1) page lastPage (c :: calls) s =
      pageLoop fileName params download fuel page lastPage calls
        { now := s.now + c.callMs + parseInt10 ra * 1000
        , tbl := s.tbl
        , events := s.events ++ [.request fileName params page s.now]
            ++ [.sleep (parseInt10 ra * 1000)] } :=
  pageLoop_step_retry fileName params download fuel page lastPage e ra c calls s
    hguard hfail hstatus hra hne

/-- C5 witness: a simulated abuse rejection on page 3 with retry-after 5
seconds makes the loop sleep exactly 5000 ms and continue at page 3. -/
theorem c5_witness :
    pageGuard 3 (some 10) = true ∧
    pageLoop "package.json" { sortParam := none, orderParam := none, searchTerm := "name" }
        (fun _ => "body") 1 3 (some 10)
        [{ outcome := .failure { status := 403, retryAfter := some "5" }
         , callMs := 100, processMs := 0 }]
        { now := 0, tbl := [], events := [] } =
      pageLoop "package.json" { sortParam := none, orderParam := none, searchTerm := "name" }
        (fun _ => "body") 0 3 (some 10) []
        { now := 5100
        , tbl := []
        , events := [ .request "package.json"
              { sortParam := none, orderParam := none, searchTerm := "name" } 3 0
            , .sleep 5000 ] } :=
  ⟨by decide,
    c5_abuse_retry_same_page "package.json"
      { sortParam := none, orderParam := none, searchTerm := "name" }
      (fun _ => "body") 0 3 (some 10)
      { status := 403, retryAfter := some "5" } "5"
      { outcome := .failure { status := 403, retryAfter := some "5" }
      , callMs := 100, processMs := 0 }
      [] { now := 0, tbl := [], events := [] }
      (by decide) rfl rfl rfl (by decide)⟩

/-- C6 counterexample: with a search call that takes 1000 ms and page
processing that takes 1000 ms (remaining quota 10), the loop sleeps
2000 ms — the remainder of 3000 ms measured from the call's return —
whereas a 3-second spacing measured from just before the call was issued
would leave a remainder of only 1000 ms to sleep. -/
theorem c6_counterexample :
    pageLoop "package.json" { sortParam := none, orderParam := none, searchTerm := "name" }
        (fun _ => "body") 2 0 none
        [{ outcome := .success
            { data := { items := [] }
            , headers := { xRatelimitReset := some "0", xRatelimitRemaining := some "10"
                         , link := some { last := some { page := "1" } } } }
         , callMs := 1000, processMs := 1000 }]
        { now := 0, tbl := [], events := [] } =
      .done { now := 4000, tbl := []
            , events := [ .request "package.json"
                  { sortParam := none, orderParam := none, searchTerm := "name" } 0 0
                , .response 0 1 1000, .sleep 2000 ] } [] ∧
    specClaimedSpacingSleep 1000 1000 = 1000 ∧ (2000 : Nat) ≠ 1000 := by
  exact ⟨by decide, by decide, by decide⟩

/-- C6 (amended): after every successful page, if the reported remaining
quota is below 1 the loop sleeps until the reported reset time plus a
2000 ms safety buffer before issuing the next request; otherwise it
enforces a minimum inter-request spacing of 3000 ms measured from just
after the search call returns to just after page processing finishes,
sleeping only for the remainder and not at all if processing already
consumed that time. -/
theorem c6_pacing_after_call_return (fileName : String) (params : QueryParams)
    (download : String → String) (fuel page : Nat) (lastPage : Option Nat)
    (c : CallEvent) (calls : List CallEvent) (s : FetchState)
    (resp : SearchResponse) (n : Nat) (tbl2 : Table)
    (hguard : pageGuard page lastPage = true)
    (hsucc : c.outcome = .success resp)
    (hok : processSearchResults s.tbl download resp.data.items = .ok (n, tbl2)) :
    pageLoop fileName params download (fuel + 1) page lastPage (c :: calls) s =
      pageLoop fileName params download fuel (page + 1)
        (some (getLastPageNumber resp.headers)) calls
        { now := s.now + c.callMs + c.processMs +
            (if (getRateLimits resp.headers).requestsRemaining < 1 then
              (getRateLimits resp.headers).resetTimestamp + 2000 -
                (s.now + c.callMs + c.processMs)
             else if c.processMs < 3000 then 3000 - c.processMs
             else 0)
        , tbl := tbl2
        , events := s.events ++ [.request fileName params page s.now]
            ++ [.response page (getLastPageNumber resp.headers) (s.now + c.callMs)]
            ++ (if (getRateLimits resp.headers).requestsRemaining < 1 ∨ c.processMs < 3000 then
                  [Event.sleep
                    (if (getRateLimits resp.headers).requestsRemaining < 1 then
                      (getRateLimits resp.headers).resetTimestamp + 2000 -
                        (s.now + c.callMs + c.processMs)
                     else 3000 - c.processMs)]
                else []) } :=
  pageLoop_step_success fileName params download fuel page lastPage c calls s
    resp n tbl2 hguard hsucc hok

/-- C6 witness: a page whose response reports zero remaining quota and a
reset 10 seconds into the run sleeps until the reset time plus the 2000 ms
buffer (the call took 50 ms and processing 20 ms, so 11930 ms of sleep,
waking at 12000 ms). -/
theorem c6_witness :
    pageGuard 0 none = true ∧
    ({ outcome := .success
        { data := { items := [] }
        , headers := { xRatelimitReset := some "10", xRatelimitRemaining := some "0"
                     , link := some { last := some { page := "3" } } } }
      , callMs := 50, processMs := 20 } : CallEvent).outcome =
      .success
        { data := { items := [] }
        , headers := { xRatelimitReset := some "10", xRatelimitRemaining := some "0"
                     , link := some { last := some { page := "3" } } } } ∧
    processSearchResults [] (fun _ => "body") [] = .ok (0, []) ∧
    pageLoop "package.json" { sortParam := none, orderParam := none, searchTerm := "name" }
        (fun _ => "body") 1 0 none
        [{ outcome := .success
            { data := { items := [] }
            , headers := { xRatelimitReset := some "10", xRatelimitRemaining := some "0"
                         , link := some { last := some { page := "3" } } } }
         , callMs := 50, processMs := 20 }]
        { now := 0, tbl := [], events := [] } =
      pageLoop "package.json" { sortParam := none, orderParam := none, searchTerm := "name" }
        (fun _ => "body") 0 1 (some 3) []
        { now := 12000, tbl := []
        , events := [ .request "package.json"
              { sortParam := none, orderParam := none, searchTerm := "name" } 0 0
            , .response 0 3 50, .sleep 11930 ] } :=
  ⟨rfl, rfl, rfl,
    c6_pacing_after_call_return "package.json"
      { sortParam := none, orderParam := none, searchTerm := "name" }
      (fun _ => "body") 0 0 none
      { outcome := .success
          { data := { items := [] }
          , headers := { xRatelimitReset := some "10", xRatelimitRemaining := some "0"
                       , link := some { last := some { page := "3" } } } }
      , callMs := 50, processMs := 20 }
      [] { now := 0, tbl := [], events := [] }
      { data := { items := [] }
      , headers := { xRatelimitReset := some "10", xRatelimitRemaining := some "0"
                   , link := some { last := some { page := "3" } } } }
      0 [] (by decide) rfl rfl⟩

/-- C7: when the pagination link header is absent, or present without a
`last` relation, `getLastPageNumber` reports 0; and a page-0 response
carrying such headers makes the loop treat page 0 as terminal — the
parameterization's page loop returns normally right after page 0 and the
events it adds contain no request for page 1 or any later page. -/
theorem c7_pagination_termination (headers : Headers)
    (habsent : headers.link = none ∨ ∃ links, headers.link = some links ∧ links.last = none)
    (fileName : String) (params : QueryParams) (download : String → String)
    (fuel : Nat) (resp : SearchResponse) (c : CallEvent) (calls : List CallEvent)
    (s : FetchState) (n : Nat) (tbl2 : Table)
    (hresp : c.outcome = .success resp) (hh : resp.headers = headers)
    (hok : processSearchResults s.tbl download resp.data.items = .ok (n, tbl2)) :
    getLastPageNumber headers = 0 ∧
    ∃ sfin : FetchState, ∃ newEvents : List Event,
      pageLoop fileName params download (fuel + 1 + 1) 0 none (c :: calls) s =
        .done sfin calls ∧
      sfin.events = s.events ++ newEvents ∧
      ∀ (p t : Nat), 1 ≤ p → Event.request fileName params p t ∉ newEvents := by
  have hlp : getLastPageNumber headers = 0 := by
    rcases habsent with h | ⟨links, hl, hlast⟩
    · simp [getLastPageNumber, h]
    · simp [getLastPageNumber, hl, hlast]
  have hlp2 : getLastPageNumber resp.headers = 0 := by rw [hh]; exact hlp
  refine ⟨hlp, ?_⟩
  rw [pageLoop_step_success fileName params download (fuel + 1) 0 none c calls s
    resp n tbl2 rfl hresp hok]
  rw [hlp2]
  have hstop : ∀ S : FetchState,
      pageLoop fileName params download (fuel + 1) (0 + 1) (some 0) calls S =
        .done S calls := by
    intro S
    simp [pageLoop, pageGuard]
  refine ⟨_, [Event.request fileName params 0 s.now,
      Event.response 0 0 (s.now + c.callMs)] ++
      (if (getRateLimits resp.headers).requestsRemaining < 1 ∨ c.processMs < 3000 then
        [Event.sleep
          (if (getRateLimits resp.headers).requestsRemaining < 1 then
            (getRateLimits resp.headers).resetTimestamp + 2000 -
              (s.now + c.callMs + c.processMs)
           else 3000 - c.processMs)]
      else []), hstop _, ?_, ?_⟩
  · simp
  · intro p t hp
    by_cases hcond :
        (getRateLimits resp.headers).requestsRemaining < 1 ∨ c.processMs < 3000 <;>
      simp [hcond] <;> omega

/-- C7 witness: a page-0 response with no pagination link header ends the
parameterization with no request beyond page 0. -/
theorem c7_witness :
    ({ xRatelimitReset := some "99", xRatelimitRemaining := some "10"
     , link := none } : Headers).link = none ∧
    (getLastPageNumber { xRatelimitReset := some "99", xRatelimitRemaining := some "10"
                       , link := none } = 0 ∧
      ∃ sfin : FetchState, ∃ newEvents : List Event,
        pageLoop "package.json"
            { sortParam := none, orderParam := none, searchTerm := "name" }
            (fun _ => "body") 2 0 none
            [{ outcome := .success
                { data := { items := [] }
                , headers := { xRatelimitReset := some "99"
                             , xRatelimitRemaining := some "10", link := none } }
             , callMs := 10, processMs := 5000 }]
            { now := 0, tbl := [], events := [] } =
          .done sfin [] ∧
        sfin.events = [] ++ newEvents ∧
        ∀ (p t : Nat), 1 ≤ p →
          Event.request "package.json"
            { sortParam := none, orderParam := none, searchTerm := "name" } p t ∉ newEvents) :=
  ⟨rfl,
    c7_pagination_termination
      { xRatelimitReset := some "99", xRatelimitRemaining := some "10", link := none }
      (Or.inl rfl) "package.json"
      { sortParam := none, orderParam := none, searchTerm := "name" }
      (fun _ => "body") 0
      { data := { items := [] }
      , headers := { xRatelimitReset := some "99", xRatelimitRemaining := some "10"
                   , link := none } }
      { outcome := .success
          { data := { items := [] }
          , headers := { xRatelimitReset := some "99", xRatelimitRemaining := some "10"
                       , link := none } }
      , callMs := 10, processMs := 5000 }
      [] { now := 0, tbl := [], events := [] } 0 []
      rfl rfl rfl⟩

/-- C8: a page's search call failing without the abuse-detection signal is
fatal at the loop layer: the iteration throws right after the request (no
retry, no sleep), a fatal page loop aborts every remaining parameterization
of the run, and a run that ends this way still closes the storage handle as
its final action. -/
theorem c8_nonabuse_failure_fatal_aborts (fileName : String) (params : QueryParams)
    (download : String → String) (fuel page : Nat) (lastPage : Option Nat)
    (e : ApiError) (c : CallEvent) (calls : List CallEvent) (s : FetchState)
    (hguard : pageGuard page lastPage = true)
    (hfail : c.outcome = .failure e)
    (hnoabuse : ¬ (e.status = 403 ∧ headerTruthy e.retryAfter)) :
    pageLoop fileName params download (fuel + 1) page lastPage (c :: calls) s =
      .fatal { now := s.now + c.callMs, tbl := s.tbl
             , events := s.events ++ [.request fileName params page s.now] }
        .typeError ∧
    (∀ (p : QueryParams) (rest : List QueryParams) (calls0 : List CallEvent)
        (s0 sErr : FetchState) (err : RunError),
      pageLoop fileName p download fuel 0 none calls0 s0 = .fatal sErr err →
      paramsLoop fileName download fuel (p :: rest) calls0 s0 = (.fatalError err, sErr)) ∧
    (∀ (calls0 : List CallEvent) (startNow : Nat) (err : RunError) (sErr : FetchState),
      paramsLoop fileName download fuel (getHelpfulParams fileName) calls0
          { now := startNow, tbl := [], events := [] } = (.fatalError err, sErr) →
      mainRun (some fileName) download fuel calls0 startNow =
        .ok { outcome := .fatalError err
            , state := { sErr with events := sErr.events ++ [.dbClosed] } }) := by
  refine ⟨pageLoop_step_fatal fileName params download fuel page lastPage e c calls s
    hguard hfail hnoabuse, ?_, ?_⟩
  · intro p rest calls0 s0 sErr err h
    simp [paramsLoop, h]
  · intro calls0 startNow err sErr h
    simp [mainRun, h]

/-- C8 witness: a status-500 failure with no retry-after header on the very
first page of a run for `x.txt`. -/
theorem c8_witness :
    pageGuard 0 (some 5) = true ∧
    ¬ ((500 : Nat) = 403 ∧ headerTruthy (none : Option String)) ∧
    (pageLoop "x.txt" { sortParam := none, orderParam := none, searchTerm := "" }
        (fun _ => "body") 1 0 (some 5)
        [{ outcome := .failure { status := 500, retryAfter := none }
         , callMs := 100, processMs := 0 }]
        { now := 0, tbl := [], events := [] } =
      .fatal { now := 100, tbl := []
             , events := [ .request "x.txt"
                 { sortParam := none, orderParam := none, searchTerm := "" } 0 0 ] }
        .typeError ∧
    (∀ (p : QueryParams) (rest : List QueryParams) (calls0 : List CallEvent)
        (s0 sErr : FetchState) (err : RunError),
      pageLoop "x.txt" p (fun _ => "body") 0 0 none calls0 s0 = .fatal sErr err →
      paramsLoop "x.txt" (fun _ => "body") 0 (p :: rest) calls0 s0 =
        (.fatalError err, sErr)) ∧
    (∀ (calls0 : List CallEvent) (startNow : Nat) (err : RunError) (sErr : FetchState),
      paramsLoop "x.txt" (fun _ => "body") 0 (getHelpfulParams "x.txt") calls0
          { now := startNow, tbl := [], events := [] } = (.fatalError err, sErr) →
      mainRun (some "x.txt") (fun _ => "body") 0 calls0 startNow =
        .ok { outcome := .fatalError err
            , state := { sErr with events := sErr.events ++ [.dbClosed] } })) :=
  ⟨by decide, by decide,
    c8_nonabuse_failure_fatal_aborts "x.txt"
      { sortParam := none, orderParam := none, searchTerm := "" }
      (fun _ => "body") 0 0 (some 5)
      { status := 500, retryAfter := none }
      { outcome := .failure { status := 500, retryAfter := none }
      , callMs := 100, processMs := 0 }
      [] { now := 0, tbl := [], events := [] }
      (by decide) rfl (by decide)⟩

/-- A table whose `haveSeenGitHash` check fails for a hash holds no row
with that hash. -/
theorem not_seen_forall (tbl : Table) (githash : String)
    (h : haveSeenGitHash tbl githash = false) :
    ∀ row ∈ tbl, row.git_hash ≠ githash := by
  intro row hrow
  have := List.any_eq_false.mp h row hrow
  simpa using this

/-- C1: offering the same item to the store twice yields a count of 1 then
a count of 0 with the table unchanged, the table afterwards holds exactly
one row with that blob identity, and pairwise distinctness of the stored
blob identities is preserved. -/
theorem c1_idempotent_ingestion (tbl : Table) (download : String → String) (item : Item)
    (hfresh : haveSeenGitHash tbl item.sha = false)
    (hnodup : (tbl.map Row.git_hash).Nodup) :
    ∃ r1 : OfferResult,
      processItem tbl download item = .ok r1 ∧
      r1.saved = 1 ∧
      processItem r1.tbl download item =
        .ok { saved := 0, tbl := r1.tbl, downloadInvoked := false } ∧
      (r1.tbl.filter fun row => row.git_hash = item.sha).length = 1 ∧
      (r1.tbl.map Row.git_hash).Nodup := by
  have hany : (tbl.any fun row => row.git_hash = item.sha) = false := hfresh
  refine ⟨{ saved := 1
          , tbl := tbl ++ [{ url := item.html_url, data := download item.html_url
                           , git_hash := item.sha }]
          , downloadInvoked := true }, ?_, rfl, ?_, ?_, ?_⟩
  · simp [processItem, haveSeenGitHash, saveFileData, dbInsert, saveFileDataCallback, hany]
  · have hseen :
        haveSeenGitHash
          (tbl ++ [{ url := item.html_url, data := download item.html_url
                   , git_hash := item.sha }]) item.sha = true := by
      simp [haveSeenGitHash]
    simp [processItem, hseen]
  · have hnil : (tbl.filter fun row => row.git_hash = item.sha) = [] :=
      List.filter_eq_nil_iff.mpr (by
        intro row hrow
        simpa using not_seen_forall tbl item.sha hfresh row hrow)
    simp [List.filter_append, hnil]
  · have hmem : item.sha ∉ tbl.map Row.git_hash := by
      intro hmem
      rcases List.mem_map.mp hmem with ⟨row, hrow, heq⟩
      exact not_seen_forall tbl item.sha hfresh row hrow heq
    simp [List.nodup_append, hnodup, hmem]

/-- C1 witness: a fresh item against the empty table. -/
theorem c1_witness :
    haveSeenGitHash [] "h" = false ∧
    (([] : Table).map Row.git_hash).Nodup ∧
    ∃ r1 : OfferResult,
      processItem [] (fun _ => "body") { html_url := "u", sha := "h" } = .ok r1 ∧
      r1.saved = 1 ∧
      processItem r1.tbl (fun _ => "body") { html_url := "u", sha := "h" } =
        .ok { saved := 0, tbl := r1.tbl, downloadInvoked := false } ∧
      (r1.tbl.filter fun row => row.git_hash = "h").length = 1 ∧
      (r1.tbl.map Row.git_hash).Nodup :=
  ⟨by decide, by decide,
    c1_idempotent_ingestion [] (fun _ => "body") { html_url := "u", sha := "h" }
      (by decide) (by decide)⟩

/-- C3: a storage rejection of the insert caused by the uniqueness
constraint on the blob identity (a row with this `git_hash` already
present) makes `saveFileData` resolve with count 0, raising no error, while
a storage error with any errno other than 19 is propagated as fatal by the
save callback instead of being absorbed. -/
theorem c3_uniqueness_absorbed_other_errors_fatal (tbl : Table)
    (url content githash : String) (err : SqliteError)
    (hdup : haveSeenGitHash tbl githash = true) (hne : err.errno ≠ 19) :
    saveFileData tbl url content githash = .ok (0, tbl) ∧
    saveFileDataCallback (.error err) tbl = .error err := by
  have h : (tbl.any fun row => row.git_hash = githash) = true := hdup
  constructor
  · simp [saveFileData, dbInsert, saveFileDataCallback, h]
  · simp [saveFileDataCallback, hne]

/-- C3 witness: a duplicate blob identity resolves with count 0 and an
errno-5 storage error propagates. -/
theorem c3_witness :
    haveSeenGitHash [{ url := "u", data := "c", git_hash := "h" }] "h" = true ∧
    (5 : Nat) ≠ 19 ∧
    (saveFileData [{ url := "u", data := "c", git_hash := "h" }] "u2" "c2" "h" =
        .ok (0, [{ url := "u", data := "c", git_hash := "h" }]) ∧
      saveFileDataCallback (.error { errno := 5 }) [{ url := "u", data := "c", git_hash := "h" }] =
        .error { errno := 5 }) :=
  ⟨by decide, by decide,
    c3_uniqueness_absorbed_other_errors_fatal
      [{ url := "u", data := "c", git_hash := "h" }] "u2" "c2" "h" { errno := 5 }
      (by decide) (by decide)⟩

/-- C4: for an offered item whose blob identity already has a stored row,
the per-item work returns count 0 with the table unchanged and without
invoking the download; in particular the outcome does not depend on the
download function at all. -/
theorem c4_predownload_gate (tbl : Table) (download : String → String) (item : Item)
    (hseen : haveSeenGitHash tbl item.sha = true) :
    processItem tbl download item =
      .ok { saved := 0, tbl := tbl, downloadInvoked := false } ∧
    ∀ download2 : String → String,
      processItem tbl download item = processItem tbl download2 item := by
  constructor
  · simp [processItem, hseen]
  · intro d2
    simp [processItem, hseen]

/-- C4 witness: a concrete already-seen item is skipped without download. -/
theorem c4_witness :
    haveSeenGitHash [{ url := "u", data := "c", git_hash := "h" }] "h" = true ∧
    processItem [{ url := "u", data := "c", git_hash := "h" }] (fun _ => "body")
        { html_url := "u2", sha := "h" } =
      .ok { saved := 0, tbl := [{ url := "u", data := "c", git_hash := "h" }]
          , downloadInvoked := false } :=
  ⟨by decide,
    (c4_predownload_gate [{ url := "u", data := "c", git_hash := "h" }] (fun _ => "body")
      { html_url := "u2", sha := "h" } (by decide)).1⟩

/-- C9 counterexample: invoked without a target-filename argument, `main`
throws (a `TypeError` from deriving the table name on `undefined`) instead
of running with the default `package.json`. -/
theorem c9_counterexample :
    mainRun none (fun _ => "") 1 [] 0 = .error .typeError := rfl

/-- C9 (amended): the target filename is a required invocation argument —
when it is absent the run fails during startup with a `TypeError` for every
oracle, while any supplied filename lets the run proceed; there is no
starting-page argument, and each parameterization's page loop is entered
hard-wired at page 0. -/
theorem c9_filename_required_page_fixed :
    (∀ (download : String → String) (fuel : Nat) (calls : List CallEvent) (startNow : Nat),
      mainRun none download fuel calls startNow = .error .typeError) ∧
    (∀ (fileName : String) (download : String → String) (fuel : Nat)
        (calls : List CallEvent) (startNow : Nat),
      ∃ r : RunResult, mainRun (some fileName) download fuel calls startNow = .ok r) ∧
    (∀ (fileName : String) (p : QueryParams) (rest : List QueryParams)
        (download : String → String) (fuel : Nat) (calls : List CallEvent) (s : FetchState),
      paramsLoop fileName download fuel (p :: rest) calls s =
        match pageLoop fileName p download fuel 0 none calls s with
        | .done s2 calls2 => paramsLoop fileName download fuel rest calls2 s2
        | .fatal s2 err => (.fatalError err, s2)
        | .outOfFuel s2 => (.outOfFuel, s2)) := by
  refine ⟨fun _ _ _ _ => rfl, fun fileName d f c t => ⟨_, rfl⟩, fun _ _ _ _ _ _ _ => rfl⟩

/-- `lastReported` distributes over trace concatenation. -/
theorem lastReported_append (xs ys : List Event) (b : Option Nat) :
    lastReported (xs ++ ys) b = lastReported ys (lastReported xs b) := by
  induction xs generalizing b with
  | nil => rfl
  | cons x xs ih => cases x <;> simp [lastReported, ih]

/-- `requestsBelowBound` splits over trace concatenation, the second part
judged under the bound reported by the first. -/
theorem requestsBelowBound_append (xs ys : List Event) (b : Option Nat) :
    requestsBelowBound (xs ++ ys) b =
      (requestsBelowBound xs b && requestsBelowBound ys (lastReported xs b)) := by
  induction xs generalizing b with
  | nil => simp [requestsBelowBound, lastReported]
  | cons x xs ih =>
    cases x <;> simp [requestsBelowBound, lastReported, ih, Bool.and_assoc]

/-- C10: within one parameterization, the events the page loop adds to the
trace always keep every request strictly below the most recently reported
last-page index (requests issued before any report, under the initial
bound, are judged by that same bound): the loop guard `page < lastPage` is
re-checked before every request, so the page equal to the reported index is
never requested, and after a report of 0 no further request occurs at all. -/
theorem c10_loop_guard_confines_requests (fileName : String) (params : QueryParams)
    (download : String → String) :
    ∀ (fuel page : Nat) (lastPage : Option Nat) (calls : List CallEvent) (s : FetchState),
      ∃ t : List Event,
        (pageLoop fileName params download fuel page lastPage calls s).state.events =
          s.events ++ t ∧
        requestsBelowBound t lastPage = true := by
  intro fuel
  induction fuel with
  | zero =>
    intro page lastPage calls s
    exact ⟨[], by simp [pageLoop, LoopResult.state], rfl⟩
  | succ fuel ih =>
    intro page lastPage calls s
    cases hpg : pageGuard page lastPage with
    | false =>
      exact ⟨[], by simp [pageLoop, hpg, LoopResult.state], rfl⟩
    | true =>
      cases calls with
      | nil => exact ⟨[], by simp [pageLoop, hpg, LoopResult.state], rfl⟩
      | cons c calls =>
        cases hco : c.outcome with
        | failure e =>
          by_cases habuse : e.status = 403 ∧ headerTruthy e.retryAfter
          · cases hra : e.retryAfter with
            | none =>
              rw [hra] at habuse
              exact absurd habuse.2 (by decide)
            | some ra =>
              have hne : ra ≠ "" := by
                intro hcontra
                rw [hra, hcontra] at habuse
                exact absurd habuse.2 (by decide)
              rw [pageLoop_step_retry fileName params download fuel page lastPage e ra
                c calls s hpg hco habuse.1 hra hne]
              obtain ⟨t, ht, hb⟩ := ih page lastPage calls
                { now := s.now + c.callMs + parseInt10 ra * 1000
                , tbl := s.tbl
                , events := s.events ++ [.request fileName params page s.now]
                    ++ [.sleep (parseInt10 ra * 1000)] }
              refine ⟨[Event.request fileName params page s.now,
                Event.sleep (parseInt10 ra * 1000)] ++ t, ?_, ?_⟩
              · rw [ht]
                simp
              · simp [requestsBelowBound, hpg, hb]
          · rw [pageLoop_step_fatal fileName params download fuel page lastPage e
              c calls s hpg hco habuse]
            exact ⟨[Event.request fileName params page s.now],
              by simp [LoopResult.state],
              by simp [requestsBelowBound, hpg]⟩
        | success resp =>
          cases hps : processSearchResults s.tbl download resp.data.items with
          | error err =>
            rw [pageLoop_step_storage fileName params download fuel page lastPage
              c calls s resp err hpg hco hps]
            exact ⟨[Event.request fileName params page s.now,
                Event.response page (getLastPageNumber resp.headers) (s.now + c.callMs)],
              by simp [LoopResult.state],
              by simp [requestsBelowBound, hpg]⟩
          | ok pair =>
            rcases pair with ⟨n2, tbl2⟩
            rw [pageLoop_step_success fileName params download fuel page lastPage
              c calls s resp n2 tbl2 hpg hco hps]
            obtain ⟨t, ht, hb⟩ := ih (page + 1) (some (getLastPageNumber resp.headers)) calls
              { now := s.now + c.callMs + c.processMs +
                  (if (getRateLimits resp.headers).requestsRemaining < 1 then
                    (getRateLimits resp.headers).resetTimestamp + 2000 -
                      (s.now + c.callMs + c.processMs)
                   else if c.processMs < 3000 then 3000 - c.processMs
                   else 0)
              , tbl := tbl2
              , events := s.events ++ [.request fileName params page s.now]
                  ++ [.response page (getLastPageNumber resp.headers) (s.now + c.callMs)]
                  ++ (if (getRateLimits resp.headers).requestsRemaining < 1 ∨
                        c.processMs < 3000 then
                        [Event.sleep
                          (if (getRateLimits resp.headers).requestsRemaining < 1 then
                            (getRateLimits resp.headers).resetTimestamp + 2000 -
                              (s.now + c.callMs + c.processMs)
                           else 3000 - c.processMs)]
                      else []) }
            refine ⟨[Event.request fileName params page s.now,
                Event.response page (getLastPageNumber resp.headers) (s.now + c.callMs)]
                ++ (if (getRateLimits resp.headers).requestsRemaining < 1 ∨
                      c.processMs < 3000 then
                      [Event.sleep
                        (if (getRateLimits resp.headers).requestsRemaining < 1 then
                          (getRateLimits resp.headers).resetTimestamp + 2000 -
                            (s.now + c.callMs + c.processMs)
                         else 3000 - c.processMs)]
                    else []) ++ t, ?_, ?_⟩
            · rw [ht]
              simp
            · by_cases hcond : (getRateLimits resp.headers).requestsRemaining = 0 ∨
                  c.processMs < 3000 <;>
                simp [Nat.lt_one_iff, hcond, requestsBelowBound, hpg, hb]

end Sweep
